import Mathlib

/-!
# Verification of the SpikeAgent asynchronous VLM curation/merge engine

This file is a shallow embedding, in Lean 4, of the concurrency and
aggregation engine found in
`src/spikeagent/curation/vlm_curation/async_vlm.py`,
`src/spikeagent/curation/vlm_curation/run_vlm.py` and
`src/spikeagent/curation/vlm_merge/async_vlm.py`, together with theorems
settling the specification claims about that engine.

Modelling conventions:
* Python floats (quality scores, metric values) are modelled as `ℚ`;
  Python's `round(x, n)` (banker's rounding / round-half-to-even) is
  modelled exactly on `ℚ` by `roundHalfEven`.
* A fallible model invocation (`model.ainvoke`) is modelled as a function
  from the attempt number to a `CallOutcome`: either a returned value or a
  raised exception.
* The cooperative (asyncio) scheduler is modelled abstractly by the set of
  reachable "snapshots": which units are in flight (bounded by the chunked
  release in `run_in_batch`) and, for each of their reviewers, which phase
  of `process_unit` that reviewer coroutine is suspended in.
* pandas DataFrames are modelled as association lists
  `List (identifier × row)`; `sort_values` is a stable sort
  (`List.insertionSort`), `set_index` pulls the key column out as the
  first component of each row pair.
-/

namespace SpikeAgent

/-- Identifier of a unit of work (a neural unit id, or a merge-group id). -/
abbrev UnitId := ℕ

/-! ## Python `round` on rationals

`round(x, 2)` in Python rounds half to even.  On exact rationals this is
`roundHalfEven (x * 100) / 100`. -/

/-- Floor of a rational, computed directly on the numerator/denominator so
that concrete instances evaluate by `decide`.  `Int.fdiv` is floor
division and `q.den > 0`, so this is the mathematical floor. -/
def ratFloor (q : ℚ) : ℤ := Int.fdiv q.num q.den

/-- Round-half-to-even (banker's rounding) of a rational to an integer:
the semantics of Python's built-in `round` restricted to exact values. -/
def roundHalfEven (q : ℚ) : ℤ :=
  let f := ratFloor q
  let frac := q - (f : ℚ)
  if frac < 1/2 then f
  else if 1/2 < frac then f + 1
  else if f % 2 = 0 then f else f + 1

/-- Python's `round(q, 2)`. -/
def pyRound2 (q : ℚ) : ℚ := (roundHalfEven (q * 100) : ℚ) / 100

/-- `statistics.mean` on a list of rationals (sum divided by length). -/
def pyMean (l : List ℚ) : ℚ := l.sum / (l.length : ℚ)

/-! ## Data model of the curation variant

`async_vlm.py` (curation): the structured output `UnitCuration`
(`reasoning`, `unit_quality_score`, `classification`), one review per
reviewer, and the aggregated per-unit record. -/

/-- The `Literal["Good", "Bad", "Error"]` classification of the pydantic
model `UnitCuration`. -/
inductive Classification
  | Good
  | Bad
  | Error
deriving DecidableEq, Repr

/-- The pydantic structured output `UnitCuration` of
`vlm_curation/async_vlm.py` (scores are Python floats, modelled as `ℚ`). -/
structure UnitCuration where
  reasoning : String
  unit_quality_score : ℚ
  classification : Classification
deriving DecidableEq, Repr

/-- The sentinel judgment returned by `process_unit` after its structured
synthesis call exhausts all retries
(`UnitCuration(classification="Error", unit_quality_score=0, reasoning='')`,
lines 140–144 of `vlm_curation/async_vlm.py`). -/
def errorSentinel : UnitCuration :=
  { reasoning := "", unit_quality_score := 0, classification := .Error }

/-- One reviewer's result as returned by `process_unit`:
`{"reviewer_id": reviewer_id, "response": response}`. -/
structure Review where
  reviewer_id : ℕ
  response : UnitCuration
deriving DecidableEq, Repr

/-- The dictionary built by `aggregate_results`.  The Python dict keys
`reviewer_{id}_score` / `reviewer_{id}_class` are modelled as association
lists from the reviewer id. -/
structure AggregatedResult where
  unit_ids : UnitId
  average_score : ℚ
  final_classification : Classification
  combined_reasoning : String
  individual_scores : List (ℕ × ℚ)
  individual_classes : List (ℕ × Classification)
deriving DecidableEq, Repr

/-- `aggregate_results(reviews, unit_id)` of `vlm_curation/async_vlm.py`
(lines 149–178): average of the scores rounded to 2 decimal places,
majority vote counting only the literal `"Good"` classifications
(`good_count > 1` decides `"Good"`, every other case `"Bad"`), and the
newline-joined reviewer reasonings. -/
def aggregate_results (reviews : List Review) (unit_id : UnitId) :
    AggregatedResult :=
  let unit_quality_scores := reviews.map (fun r => r.response.unit_quality_score)
  let classifications := reviews.map (fun r => r.response.classification)
  let average_score := pyRound2 (pyMean unit_quality_scores)
  let good_count := classifications.count .Good
  let majority_classification : Classification :=
    if good_count > 1 then .Good else .Bad
  let combined_reasoning :=
    String.intercalate "\n" (reviews.map (fun r =>
      "Reviewer " ++ toString r.reviewer_id ++ ": " ++ r.response.reasoning))
  { unit_ids := unit_id
    average_score := average_score
    final_classification := majority_classification
    combined_reasoning := combined_reasoning
    individual_scores := reviews.map (fun r => (r.reviewer_id, r.response.unit_quality_score))
    individual_classes := reviews.map (fun r => (r.reviewer_id, r.response.classification)) }

/-! ## The retry loop

Every model call in both variants is wrapped in the same manual loop
(`max_retries = 10`):

```
attempt = 0
while attempt < max_retries:
    try:
        response = await ...ainvoke(...)
        return ...
    except Exception as e:
        attempt += 1
        if attempt == max_retries:
            return <sentinel>
        await asyncio.sleep(1)
```

One `ainvoke` attempt either returns a value or raises; we model it as a
function from the attempt counter (the value of `attempt` when the call
is issued) to a `CallOutcome`. -/

/-- Outcome of one `ainvoke` attempt: a returned value, or a raised
exception. -/
inductive CallOutcome (α : Type)
  | ok (val : α)
  | raise
deriving DecidableEq, Repr

/-- Trace of one execution of the retry loop: the value the enclosing
function returns (`none` models Python's implicit `return None` when the
`while` condition is false at entry, unreachable for `max_retries = 10`),
the number of times `ainvoke` was invoked, and the number of
`asyncio.sleep(1)` pauses taken. -/
structure RetryTrace (α : Type) where
  result : Option α
  invocations : ℕ
  sleeps : ℕ
deriving DecidableEq, Repr

/-- One step-indexed unfolding of the `while attempt < max_retries` loop.
`fuel` is `max_retries - attempt`, so the `fuel = 0` case is exactly the
loop condition failing.  On success the value is returned at once; on an
exception the counter is incremented, and if it has reached `max_retries`
the sentinel is returned, otherwise the loop sleeps one second and
retries. -/
def retryAux {α : Type} (call : ℕ → CallOutcome α) (sentinel : α)
    (max_retries : ℕ) : ℕ → ℕ → RetryTrace α
  | _, 0 => { result := none, invocations := 0, sleeps := 0 }
  | attempt, fuel + 1 =>
    match call attempt with
    | .ok v => { result := some v, invocations := 1, sleeps := 0 }
    | .raise =>
      if attempt + 1 = max_retries then
        { result := some sentinel, invocations := 1, sleeps := 0 }
      else
        let rest := retryAux call sentinel max_retries (attempt + 1) fuel
        { result := rest.result, invocations := rest.invocations + 1,
          sleeps := rest.sleeps + 1 }

/-- The retry loop as written in the source: `attempt` starts at `0` and
the loop runs while `attempt < max_retries`. -/
def retryLoop {α : Type} (call : ℕ → CallOutcome α) (sentinel : α)
    (max_retries : ℕ) : RetryTrace α :=
  retryAux call sentinel max_retries 0 max_retries

/-- `process_feature` (curation lines 56–75, merge lines 79–100): the
retry loop around a free-text `ainvoke`, with `max_retries = 10` and the
empty string as the degrade sentinel. -/
def process_feature_call (call : ℕ → CallOutcome String) : RetryTrace String :=
  retryLoop call "" 10

/-- `process_metrics` (curation lines 77–100): the identical retry loop,
again with the empty string as the degrade sentinel. -/
def process_metrics_call (call : ℕ → CallOutcome String) : RetryTrace String :=
  retryLoop call "" 10

/-- The structured synthesis call of the curation `process_unit`
(lines 127–145): retry loop with `max_retries = 10` degrading to the
`UnitCuration` sentinel `errorSentinel`. -/
def process_unit_synthesis_call (call : ℕ → CallOutcome UnitCuration) :
    RetryTrace UnitCuration :=
  retryLoop call errorSentinel 10

/-! ## Batch scheduler

`run_in_batch` in both variants derives a chunk size from the worker
budget and releases the per-unit tasks in chunks of that size:

curation (`vlm_curation/async_vlm.py` lines 190–209):
```
semaphore = asyncio.Semaphore(num_workers)
len_feature = len(kwargs.get('features',[0]))
batch_size = num_workers//(3*len_feature)
...
for i in range(0, len(tasks), batch_size):
    batch = tasks[i:i + batch_size]
    results.extend(await asyncio.gather(*batch))
```

merge (`vlm_merge/async_vlm.py` lines 154–174): textually the same
scheduler, in particular the same `batch_size = num_workers//(3*len_feature)`
even though each merge group runs a single reviewer pass. -/

/-- `batch_size = num_workers//(3*len_feature)` of the curation
`run_in_batch` (line 194). -/
def curation_batch_size (num_workers : ℕ) (features : List String) : ℕ :=
  num_workers / (3 * features.length)

/-- `batch_size = num_workers//(3*len_feature)` of the merge
`run_in_batch` (line 158). -/
def merge_batch_size (num_workers : ℕ) (features : List String) : ℕ :=
  num_workers / (3 * features.length)

/-- `for i in range(0, len(tasks), batch_size): tasks[i:i + batch_size]`:
the successive slices released by the scheduler.  Only meaningful for
`bs > 0` (`range` with step `0` raises `ValueError`, see
`run_in_batch_model`). -/
def chunked {α : Type} (bs : ℕ) : List α → List (List α)
  | [] => []
  | a :: l =>
    if _h : bs = 0 then []
    else (a :: l).take bs :: chunked bs ((a :: l).drop bs)
  termination_by l => l.length
  decreasing_by
    simp only [List.length_drop, List.length_cons]
    omega

/-- Exceptions that escape `run_in_batch` before any unit is processed. -/
inductive BatchError
  | zeroDivisionError
  | valueError
deriving DecidableEq, Repr

/-- The control skeleton of the curation `run_in_batch` (lines 190–209):
`batch_size = num_workers//(3*len_feature)` raises `ZeroDivisionError`
when the feature list is empty; `range(0, len(tasks), 0)` raises
`ValueError` when the derived batch size is zero; otherwise every unit id
is driven through the per-unit pipeline (abstracted as `process`) in
chunks of `batch_size`, and the chunk results are concatenated in
release order. -/
def run_in_batch_model (num_workers : ℕ) (features : List String)
    (unit_ids : List UnitId) (process : UnitId → AggregatedResult) :
    Except BatchError (List AggregatedResult) :=
  if features.length = 0 then .error .zeroDivisionError
  else
    let batch_size := num_workers / (3 * features.length)
    if batch_size = 0 then .error .valueError
    else .ok ((chunked batch_size unit_ids).map (List.map process)).flatten

/-- One row of the merge result table, as returned by the merge
`process_unit` (lines 135–139). -/
structure MergeResult where
  group_id : UnitId
  merge_type : String
  merge_units : List ℕ
  reasoning : String
  report : String
deriving DecidableEq, Repr

/-- The control skeleton of the merge `run_in_batch` (lines 154–174):
identical scheduler, identical divisor `3*len_feature`. -/
def merge_run_in_batch_model (num_workers : ℕ) (features : List String)
    (group_ids : List UnitId) (process : UnitId → MergeResult) :
    Except BatchError (List MergeResult) :=
  if features.length = 0 then .error .zeroDivisionError
  else
    let batch_size := num_workers / (3 * features.length)
    if batch_size = 0 then .error .valueError
    else .ok ((chunked batch_size group_ids).map (List.map process)).flatten

/-! ## Abstract concurrency model

The engine runs on one asyncio event loop; every `ainvoke` (and every
`asyncio.sleep`) is a suspension point.  A reviewer coroutine
(`process_unit`) first awaits `asyncio.gather` over one `process_feature`
task per feature, plus one `process_metrics` task when a metrics table
was passed (curation lines 110–116), and only then issues its single
structured synthesis call (lines 127–145).  So at any instant a live
reviewer is in one of three phases: all of its fan-out calls in flight,
its synthesis call in flight, or finished.

`run_in_batch` gathers the per-unit tasks chunk by chunk
(`batch_size = num_workers//(3*len_feature)`), awaiting each chunk
completely before releasing the next, so at any instant at most
`batch_size` units are in flight (the `asyncio.Semaphore(num_workers)`
is a second, weaker bound since `batch_size ≤ num_workers`).  Within one
in-flight unit the curation variant runs 3 concurrent reviewers
(`async_run_with_reviewers`, `reviewers = [1, 2, 3]`), the merge variant
a single reviewer pass.  A snapshot records, for each in-flight unit, the
phase of each of its reviewer coroutines; any combination of phases is
reachable because every call is suspended on the external model. -/

/-- Static shape of one batch invocation: the worker budget, the number
of requested features, the number of reviewers per unit (3 for curation,
1 for merge), and whether the curation metrics channel is active. -/
structure EngineShape where
  num_workers : ℕ
  num_features : ℕ
  reviewers : ℕ
  with_metrics : Bool
deriving DecidableEq, Repr

/-- The derived chunk size `num_workers//(3*len_feature)`, common to both
variants. -/
def EngineShape.batch_size (c : EngineShape) : ℕ :=
  c.num_workers / (3 * c.num_features)

/-- Phase of one reviewer coroutine of an in-flight unit. -/
inductive ReviewerPhase
  | fanout
  | synthesis
  | finished
deriving DecidableEq, Repr

/-- Raw model calls a reviewer holds in flight in a given phase: during
the fan-out, one call per feature plus the metrics call when the metrics
channel is active; during synthesis, exactly one call. -/
def ReviewerPhase.inflight (c : EngineShape) : ReviewerPhase → ℕ
  | .fanout => c.num_features + (if c.with_metrics then 1 else 0)
  | .synthesis => 1
  | .finished => 0

/-- State of one in-flight unit: the phases of its reviewer coroutines
(one entry per reviewer). -/
abbrev UnitState := List ReviewerPhase

/-- Raw model calls an in-flight unit holds. -/
def unitInflight (c : EngineShape) (u : UnitState) : ℕ :=
  (u.map (ReviewerPhase.inflight c)).sum

/-- A snapshot of the event loop during one chunk: the states of the
currently in-flight units. -/
structure BatchSnapshot where
  active_units : List UnitState
deriving DecidableEq, Repr

/-- A snapshot is reachable iff at most `batch_size` units are in flight
(the chunked release) and every in-flight unit carries exactly
`c.reviewers` reviewer coroutines. -/
def BatchSnapshot.valid (c : EngineShape) (s : BatchSnapshot) : Prop :=
  s.active_units.length ≤ c.batch_size ∧
    ∀ u ∈ s.active_units, u.length = c.reviewers

instance (c : EngineShape) (s : BatchSnapshot) :
    Decidable (s.valid c) := by
  unfold BatchSnapshot.valid
  infer_instance

/-- Total raw model calls in flight in a snapshot. -/
def BatchSnapshot.inflight (c : EngineShape) (s : BatchSnapshot) : ℕ :=
  (s.active_units.map (unitInflight c)).sum

/-! ## Result assembly

Curation `async_run` (lines 237–241):
```
results_df = pd.DataFrame(results)
results_df = results_df.sort_values(by="unit_ids", ascending=True)
results_df.set_index("unit_ids", inplace=True)
```
and identically for merge with `"group_id"` (lines 200–204).
`sort_values` is a stable ascending sort on the key column, modelled by
`List.insertionSort`; `set_index` makes the key the row index, modelled
by pairing each row with its key. -/

/-- The `sort_values(by="unit_ids")` ordering on aggregated rows. -/
def byUnitIds (a b : AggregatedResult) : Prop := a.unit_ids ≤ b.unit_ids

instance : DecidableRel byUnitIds := fun a b =>
  inferInstanceAs (Decidable (a.unit_ids ≤ b.unit_ids))

instance : IsTotal AggregatedResult byUnitIds :=
  ⟨fun a b => Nat.le_total a.unit_ids b.unit_ids⟩

instance : IsTrans AggregatedResult byUnitIds :=
  ⟨fun _ _ _ hab hbc => Nat.le_trans hab hbc⟩

/-- The terminal steps of the curation `async_run`: sort the collected
records ascending by `unit_ids` and set that column as the row index. -/
def async_run_assemble (results : List AggregatedResult) :
    List (UnitId × AggregatedResult) :=
  (results.insertionSort byUnitIds).map (fun r => (r.unit_ids, r))

/-- The `sort_values(by="group_id")` ordering on merge rows. -/
def byGroupId (a b : MergeResult) : Prop := a.group_id ≤ b.group_id

instance : DecidableRel byGroupId := fun a b =>
  inferInstanceAs (Decidable (a.group_id ≤ b.group_id))

instance : IsTotal MergeResult byGroupId :=
  ⟨fun a b => Nat.le_total a.group_id b.group_id⟩

instance : IsTrans MergeResult byGroupId :=
  ⟨fun _ _ _ hab hbc => Nat.le_trans hab hbc⟩

/-- The terminal steps of the merge `async_run`
(`vlm_merge/async_vlm.py` lines 200–204): sort the collected rows
ascending by `group_id` and set that column as the row index. -/
def merge_async_run_assemble (results : List MergeResult) :
    List (UnitId × MergeResult) :=
  (results.insertionSort byGroupId).map (fun r => (r.group_id, r))

/-! ## The metrics channel -/

/-- Left-pad a string with `'0'` to width `w`. -/
def padZeros (s : String) (w : ℕ) : String :=
  String.mk (List.replicate (w - s.length) '0') ++ s

/-- Python's fixed-point formatting `f"{v:.5f}"` on an exact rational:
round half-to-even at the fifth decimal and print all five decimals. -/
def ratToFixed5 (q : ℚ) : String :=
  let n := roundHalfEven (q * 100000)
  let m := n.natAbs
  let sign := if q < 0 then "-" else ""
  sign ++ toString (m / 100000) ++ "." ++ padZeros (toString (m % 100000)) 5

/-- The text of the metrics message built by `process_metrics`
(curation lines 78–80): the unit's metrics row `qm = metrics.loc[unit_id]`
flattened as `",".join(f"{k}: {v:.5f}" for k, v in qm.items())` behind a
fixed instruction. -/
def metrics_message_text (qm : List (String × ℚ)) : String :=
  "These are the quality metrics of this unit. Assess the quality. - " ++
    String.intercalate "," (qm.map (fun kv => kv.1 ++ ": " ++ ratToFixed5 kv.2))

/-- One raw model call dispatched by the fan-out of the curation
`process_unit`: a per-feature call, or the metrics call with its message
text. -/
inductive ModelCall
  | featureCall (feature : String)
  | metricsCall (text : String)
deriving DecidableEq, Repr

/-- Whether a call is the metrics call. -/
def ModelCall.isMetrics : ModelCall → Bool
  | .featureCall _ => false
  | .metricsCall _ => true

/-- The fan-out task list built by one reviewer's `process_unit`
(curation lines 110–114): one `process_feature` task per requested
feature, and — exactly when a metrics table was passed (`metrics is not
None`) — one additional `process_metrics` task carrying the unit's
flattened metrics row. -/
def process_unit_tasks (features : List String)
    (metricsRow : Option (List (String × ℚ))) : List ModelCall :=
  features.map .featureCall ++
    (match metricsRow with
     | some qm => [.metricsCall (metrics_message_text qm)]
     | none => [])

/-- A quality-metrics DataFrame, as an association list from unit id to
its row (an association list from metric name to value). -/
abbrev MetricsFrame := List (UnitId × List (String × ℚ))

/-- `metrics.columns` of the association-list DataFrame model: the keys
of its rows (taken from the first row). -/
def metricsColumns (qualityMetrics : MetricsFrame) : List String :=
  match qualityMetrics with
  | [] => []
  | r :: _ => r.2.map Prod.fst

/-- `metrics[valid_metrics]` restricted to one row: keep the listed
columns, in the listed order. -/
def selectRow (cols : List String) (row : List (String × ℚ)) :
    List (String × ℚ) :=
  cols.filterMap (fun c => (List.lookup c row).map (fun v => (c, v)))

/-- The metrics-selection logic of `run_vlm_curation`
(`run_vlm.py` lines 19–36): when `with_metrics` is false the engine is
handed `metrics = None`, whatever quality metrics exist; when true, the
requested metric list (defaulting to `["snr", "isi_violations_ratio",
"l_ratio"]`) is filtered against the available columns — `ValueError` if
none survive — and the surviving columns of the rows of `unit_ids_` are
handed to `async_run`. -/
def run_vlm_curation_metrics (with_metrics : Bool)
    (metrics_list : Option (List String)) (qualityMetrics : MetricsFrame)
    (unit_ids : List UnitId) : Except String (Option MetricsFrame) :=
  if with_metrics then
    let mlist := metrics_list.getD ["snr", "isi_violations_ratio", "l_ratio"]
    let available := metricsColumns qualityMetrics
    let valid := mlist.filter (fun m => m ∈ available)
    if valid.isEmpty then .error "ValueError"
    else
      .ok (some (unit_ids.filterMap (fun id =>
        (List.lookup id qualityMetrics).map (fun row => (id, selectRow valid row)))))
  else .ok none

/-- The only input validation the curation `async_run` performs before
processing (lines 221–222): `assert (len(encoded_img_df) == len(metrics))`
when a metrics table is supplied.  Nothing about the row indices is
inspected. -/
def async_run_metrics_assert {α β : Type} (encoded_img_df : List (UnitId × α))
    (metrics : Option (List (UnitId × β))) : Except String Unit :=
  match metrics with
  | none => .ok ()
  | some m =>
    if encoded_img_df.length = m.length then .ok ()
    else .error "AssertionError"

/-! ## Helper lemmas -/

/-- One unfolding step of the retry loop on a raising attempt. -/
lemma retryAux_succ_raise {α : Type} (call : ℕ → CallOutcome α) (s : α)
    (M attempt fuel : ℕ) (hc : call attempt = .raise) :
    retryAux call s M attempt (fuel + 1) =
      if attempt + 1 = M then
        { result := some s, invocations := 1, sleeps := 0 }
      else
        { result := (retryAux call s M (attempt + 1) fuel).result,
          invocations := (retryAux call s M (attempt + 1) fuel).invocations + 1,
          sleeps := (retryAux call s M (attempt + 1) fuel).sleeps + 1 } := by
  simp only [retryAux, hc]

/-- When every attempt raises, the retry loop runs its full fuel: one
invocation per remaining attempt, one sleep between consecutive
attempts, and the sentinel as result. -/
lemma retryAux_raise_all {α : Type} (call : ℕ → CallOutcome α) (s : α)
    (M : ℕ) (h : ∀ n, call n = .raise) :
    ∀ f a, 1 ≤ f → a + f = M →
      retryAux call s M a f =
        { result := some s, invocations := f, sleeps := f - 1 } := by
  intro f
  induction f with
  | zero => intro a hf _; exact absurd hf (by omega)
  | succ k ih =>
    intro a _ hM
    rw [retryAux_succ_raise call s M a k (h a)]
    cases k with
    | zero =>
      have h1 : a + 1 = M := by omega
      simp [h1]
    | succ k' =>
      have hne : ¬(a + 1 = M) := by omega
      rw [if_neg hne, ih (a + 1) (by omega) (by omega)]
      simp

/-- `retryLoop` with all attempts raising and positive `max_retries`. -/
lemma retryLoop_raise_all {α : Type} (call : ℕ → CallOutcome α) (s : α)
    (M : ℕ) (hM : 1 ≤ M) (h : ∀ n, call n = .raise) :
    retryLoop call s M =
      { result := some s, invocations := M, sleeps := M - 1 } :=
  retryAux_raise_all call s M h M 0 hM (by omega)

/-! ## Claim theorems -/

/-- C3: a single model call whose underlying invocation raises on every
attempt is invoked exactly 10 times, with a 1-second pause between each
pair of consecutive attempts (9 pauses), and then returns a sentinel
instead of raising: the empty string for a per-feature or metrics report,
and the structured judgment
`classification = Error, unit_quality_score = 0, reasoning = ""` for the
curation synthesis call. -/
theorem retry_exhaustion_degrades_to_sentinel
    (callF callM : ℕ → CallOutcome String)
    (callS : ℕ → CallOutcome UnitCuration)
    (hF : ∀ n, callF n = .raise) (hM : ∀ n, callM n = .raise)
    (hS : ∀ n, callS n = .raise) :
    process_feature_call callF =
      { result := some "", invocations := 10, sleeps := 9 } ∧
    process_metrics_call callM =
      { result := some "", invocations := 10, sleeps := 9 } ∧
    process_unit_synthesis_call callS =
      { result := some { reasoning := "", unit_quality_score := 0,
                         classification := .Error },
        invocations := 10, sleeps := 9 } := by
  refine ⟨?_, ?_, ?_⟩
  · exact retryLoop_raise_all callF "" 10 (by omega) hF
  · exact retryLoop_raise_all callM "" 10 (by omega) hM
  · exact retryLoop_raise_all callS errorSentinel 10 (by omega) hS

/-- Witness for C3: the concrete always-raising call. -/
theorem retry_exhaustion_degrades_to_sentinel_witness :
    process_feature_call (fun _ => .raise) =
      { result := some "", invocations := 10, sleeps := 9 } ∧
    process_metrics_call (fun _ => .raise) =
      { result := some "", invocations := 10, sleeps := 9 } ∧
    process_unit_synthesis_call (fun _ => .raise) =
      { result := some { reasoning := "", unit_quality_score := 0,
                         classification := .Error },
        invocations := 10, sleeps := 9 } :=
  retry_exhaustion_degrades_to_sentinel _ _ _
    (fun _ => rfl) (fun _ => rfl) (fun _ => rfl)

/-- C4: for a unit with its 3 reviewer judgments the aggregator yields
`Good` exactly when strictly more than 1 of the 3 classifications is
`Good`, and `Bad` in every other case; `Error` never counts as a `Good`
vote, as the three concrete votes show. -/
theorem majority_vote_good_iff :
    (∀ (r1 r2 r3 : Review) (uid : UnitId),
      (aggregate_results [r1, r2, r3] uid).final_classification =
        (if 1 < ([r1, r2, r3].map
            (fun r => r.response.classification)).count .Good
         then Classification.Good else Classification.Bad)) ∧
    (aggregate_results
      [⟨1, ⟨"", 1, .Good⟩⟩, ⟨2, ⟨"", 1, .Good⟩⟩, ⟨3, ⟨"", 0, .Bad⟩⟩]
      0).final_classification = .Good ∧
    (aggregate_results
      [⟨1, ⟨"", 1, .Good⟩⟩, ⟨2, ⟨"", 0, .Bad⟩⟩, ⟨3, ⟨"", 0, .Bad⟩⟩]
      0).final_classification = .Bad ∧
    (aggregate_results
      [⟨1, ⟨"", 1, .Good⟩⟩, ⟨2, ⟨"", 0, .Error⟩⟩, ⟨3, ⟨"", 0, .Bad⟩⟩]
      0).final_classification = .Bad := by
  refine ⟨?_, by decide, by decide, by decide⟩
  intro r1 r2 r3 uid
  simp [aggregate_results]

/-- C9: the aggregated `average_score` is the arithmetic mean of the 3
reviewer scores rounded (half-to-even, Python `round`) to 2 decimal
places; in particular scores `[0.2, 0.5, 0.9]` average to `0.53`. -/
theorem average_score_is_rounded_mean :
    (∀ (r1 r2 r3 : Review) (uid : UnitId),
      (aggregate_results [r1, r2, r3] uid).average_score =
        pyRound2 ((r1.response.unit_quality_score +
          r2.response.unit_quality_score +
          r3.response.unit_quality_score) / 3)) ∧
    (aggregate_results
      [⟨1, ⟨"", 1/5, .Good⟩⟩, ⟨2, ⟨"", 1/2, .Good⟩⟩, ⟨3, ⟨"", 9/10, .Good⟩⟩]
      0).average_score = 53 / 100 := by
  constructor
  · intro r1 r2 r3 uid
    simp only [aggregate_results, pyMean, List.map_cons, List.map_nil,
      List.sum_cons, List.sum_nil, List.length_cons, List.length_nil]
    norm_num [add_assoc]
  · norm_num [aggregate_results, pyMean, pyRound2, roundHalfEven, ratFloor,
      show Int.fdiv 160 3 = 53 from by decide]

/-- C5 counterexample: a unit whose 3 reviewers all degraded to the
sentinel `Error` judgment is written into the result row with
`final_classification = Bad`, not `Error` — the majority vote only ever
emits `Good` or `Bad`. -/
theorem degraded_unit_shown_bad_counterexample :
    (aggregate_results
      [⟨1, errorSentinel⟩, ⟨2, errorSentinel⟩, ⟨3, errorSentinel⟩]
      7).final_classification = .Bad ∧
    (aggregate_results
      [⟨1, errorSentinel⟩, ⟨2, errorSentinel⟩, ⟨3, errorSentinel⟩]
      7).final_classification ≠ .Error := by
  constructor <;> decide

/-- C5 (amended): a unit whose ensemble fully degraded gets
`final_classification = Bad` in its result row; the degradation is
surfaced only through the retained per-reviewer columns (every
`reviewer_i_class` is `Error`) and the zero average score. -/
theorem degraded_unit_is_bad (reviews : List Review) (uid : UnitId)
    (hall : ∀ r ∈ reviews, r.response = errorSentinel) :
    (aggregate_results reviews uid).final_classification = .Bad ∧
    (∀ p ∈ (aggregate_results reviews uid).individual_classes,
      p.2 = Classification.Error) ∧
    (aggregate_results reviews uid).average_score = 0 := by
  have hcount :
      (reviews.map (fun r => r.response.classification)).count
        Classification.Good = 0 := by
    rw [List.count_eq_zero]
    intro hmem
    rcases List.mem_map.mp hmem with ⟨r, hr, hc⟩
    rw [hall r hr] at hc
    exact absurd hc (by decide)
  have hsum : (reviews.map (fun r => r.response.unit_quality_score)).sum = 0 := by
    apply List.sum_eq_zero
    intro s hs
    rcases List.mem_map.mp hs with ⟨r, hr, hc⟩
    rw [hall r hr] at hc
    exact hc.symm
  refine ⟨?_, ?_, ?_⟩
  · simp [aggregate_results, hcount]
  · intro p hp
    rcases List.mem_map.mp hp with ⟨r, hr, hc⟩
    rw [hall r hr] at hc
    rw [← hc]
    rfl
  · simp only [aggregate_results, pyMean, hsum]
    norm_num [pyRound2, roundHalfEven, ratFloor]

/-- Witness for C5 (amended): the concrete fully degraded ensemble. -/
theorem degraded_unit_is_bad_witness :
    (aggregate_results
      [⟨1, errorSentinel⟩, ⟨2, errorSentinel⟩, ⟨3, errorSentinel⟩]
      9).final_classification = .Bad ∧
    (∀ p ∈ (aggregate_results
      [⟨1, errorSentinel⟩, ⟨2, errorSentinel⟩, ⟨3, errorSentinel⟩]
      9).individual_classes, p.2 = Classification.Error) ∧
    (aggregate_results
      [⟨1, errorSentinel⟩, ⟨2, errorSentinel⟩, ⟨3, errorSentinel⟩]
      9).average_score = 0 :=
  degraded_unit_is_bad _ 9 (by intro r hr; fin_cases hr <;> rfl)

/-- C7 counterexample: the curation `async_run` does validate the
metrics table's length — a 3-row batch with a 2-row metrics table trips
the `assert (len(encoded_img_df) == len(metrics))` before processing. -/
theorem metrics_length_checked_counterexample :
    async_run_metrics_assert
      [(1, "imgA"), (2, "imgB"), (3, "imgC")]
      (some [(1, [("snr", (1 : ℚ))]), (2, [("snr", 2)])]) =
      .error "AssertionError" := rfl

/-- C7 (amended): the only engine-side validation of a supplied metrics
table is the length assertion; row-index alignment is never inspected —
any metrics table of matching length passes the pre-processing check
whatever unit ids its rows carry, and without a metrics table nothing is
checked at all. -/
theorem metrics_index_never_checked {α β : Type}
    (encoded_img_df : List (UnitId × α)) (metrics : List (UnitId × β))
    (hlen : metrics.length = encoded_img_df.length) :
    async_run_metrics_assert encoded_img_df (some metrics) = .ok () ∧
    async_run_metrics_assert encoded_img_df
      (none : Option (List (UnitId × β))) = .ok () := by
  constructor
  · simp [async_run_metrics_assert, hlen]
  · rfl

/-- Witness for C7 (amended): equal row counts but entirely disjoint
unit ids still pass the engine's check. -/
theorem metrics_index_never_checked_witness :
    async_run_metrics_assert [(1, "imgA"), (2, "imgB")]
      (some [(10, [("snr", (1 : ℚ))]), (99, [("snr", 2)])]) = .ok () ∧
    async_run_metrics_assert [(1, "imgA"), (2, "imgB")]
      (none : Option (List (UnitId × List (String × ℚ)))) = .ok () :=
  metrics_index_never_checked [(1, "imgA"), (2, "imgB")]
    [(10, [("snr", (1 : ℚ))]), (99, [("snr", 2)])] rfl

/-- Every chunk released by the scheduler has at most `bs` units. -/
lemma chunked_length_le {α : Type} (bs : ℕ) (l : List α) :
    ∀ chunk ∈ chunked bs l, chunk.length ≤ bs := by
  induction l using chunked.induct bs with
  | case1 => simp [chunked]
  | case2 a l h => simp [chunked, h]
  | case3 a l h ih =>
    intro chunk hc
    simp only [chunked, h, dite_false] at hc
    rcases List.mem_cons.mp hc with h1 | h2
    · subst h1
      exact List.length_take_le bs (a :: l)
    · exact ih chunk h2

/-- For a positive chunk size, the chunks concatenate back to the
original unit list: every unit is released exactly once, in order. -/
lemma chunked_flatten {α : Type} (bs : ℕ) (hbs : bs ≠ 0) (l : List α) :
    (chunked bs l).flatten = l := by
  induction l using chunked.induct bs with
  | case1 => simp [chunked]
  | case2 a l h => exact absurd h hbs
  | case3 a l h ih =>
    simp only [chunked, h, dite_false, List.flatten_cons, ih]
    exact List.take_append_drop bs (a :: l)

/-- C2 counterexample: for `num_workers = 12` and 2 features the merge
scheduler's chunk size is `12 // (3*2) = 2`, not the claimed
`12 // (1*2) = 6`. -/
theorem merge_divisor_counterexample :
    merge_batch_size 12 ["waveform_single", "crosscorrelograms"] = 2 ∧
    12 / (1 * (["waveform_single", "crosscorrelograms"] : List String).length)
      = 6 ∧
    merge_batch_size 12 ["waveform_single", "crosscorrelograms"] ≠
      12 / (1 * (["waveform_single", "crosscorrelograms"] :
        List String).length) := by
  refine ⟨rfl, rfl, ?_⟩
  decide

/-- C2 (amended): both scheduler variants release units in chunks of the
same derived size `floor(num_workers / (3 × number of features))` — the
merge variant's divisor carries the factor 3 as well, despite its single
reviewer pass — and every released chunk holds at most that many units. -/
theorem batch_chunk_size_both_variants (num_workers : ℕ)
    (features : List String) (unit_ids : List UnitId) :
    curation_batch_size num_workers features =
      num_workers / (3 * features.length) ∧
    merge_batch_size num_workers features =
      curation_batch_size num_workers features ∧
    ∀ chunk ∈ chunked (curation_batch_size num_workers features) unit_ids,
      chunk.length ≤ num_workers / (3 * features.length) := by
  exact ⟨rfl, rfl, chunked_length_le _ unit_ids⟩

/-- Witness for C2 (amended): a concrete released chunk. -/
theorem batch_chunk_size_both_variants_witness :
    [5, 6] ∈ chunked (curation_batch_size 12 ["wf", "cc"]) [5, 6, 7] ∧
    ([5, 6] : List UnitId).length ≤ 12 / (3 * 2) :=
  ⟨by simp [chunked, curation_batch_size],
   (batch_chunk_size_both_variants 12 ["wf", "cc"] [5, 6, 7]).2.2 [5, 6]
     (by simp [chunked, curation_batch_size])⟩

/-- C10: `run_in_batch` (curation and merge alike) needs
`num_workers ≥ 3 × len(features)` with a non-empty feature list: an empty
feature list makes `num_workers//(3*len_feature)` raise
`ZeroDivisionError`, a zero derived batch size makes
`range(0, len(tasks), 0)` raise `ValueError`, and in both cases the
exception escapes before any unit is processed; under the precondition
the batch runs every unit exactly once, in release order. -/
theorem run_in_batch_implicit_precondition
    (num_workers : ℕ) (features : List String) (unit_ids : List UnitId)
    (p : UnitId → AggregatedResult) (pm : UnitId → MergeResult) :
    (features = [] →
      run_in_batch_model num_workers features unit_ids p =
        .error .zeroDivisionError ∧
      merge_run_in_batch_model num_workers features unit_ids pm =
        .error .zeroDivisionError) ∧
    (features ≠ [] → num_workers / (3 * features.length) = 0 →
      run_in_batch_model num_workers features unit_ids p =
        .error .valueError ∧
      merge_run_in_batch_model num_workers features unit_ids pm =
        .error .valueError) ∧
    (features ≠ [] → 3 * features.length ≤ num_workers →
      run_in_batch_model num_workers features unit_ids p =
        .ok (unit_ids.map p) ∧
      merge_run_in_batch_model num_workers features unit_ids pm =
        .ok (unit_ids.map pm)) := by
  refine ⟨?_, ?_, ?_⟩
  · intro h
    constructor <;> simp [run_in_batch_model, merge_run_in_batch_model, h]
  · intro h hbs
    have hlen : features.length ≠ 0 := fun hc =>
      h (List.eq_nil_of_length_eq_zero hc)
    constructor <;>
      simp [run_in_batch_model, merge_run_in_batch_model, hlen, hbs]
  · intro h hw
    have hlen : 0 < features.length :=
      Nat.pos_of_ne_zero (fun hc => h (List.eq_nil_of_length_eq_zero hc))
    have hbs : 1 ≤ num_workers / (3 * features.length) :=
      (Nat.one_le_div_iff (by omega)).mpr hw
    have hflat_a :
        ((chunked (num_workers / (3 * features.length)) unit_ids).map
          (List.map p)).flatten = unit_ids.map p := by
      rw [← List.map_flatten, chunked_flatten _ (by omega) unit_ids]
    have hflat_m :
        ((chunked (num_workers / (3 * features.length)) unit_ids).map
          (List.map pm)).flatten = unit_ids.map pm := by
      rw [← List.map_flatten, chunked_flatten _ (by omega) unit_ids]
    constructor
    · simp only [run_in_batch_model, if_neg (by omega : ¬features.length = 0),
        if_neg (by omega : ¬num_workers / (3 * features.length) = 0)]
      rw [hflat_a]
    · simp only [merge_run_in_batch_model,
        if_neg (by omega : ¬features.length = 0),
        if_neg (by omega : ¬num_workers / (3 * features.length) = 0)]
      rw [hflat_m]

/-- Witness for C10: the three concrete boundary behaviours. -/
theorem run_in_batch_implicit_precondition_witness :
    run_in_batch_model 50 [] [1]
      (fun i => ⟨i, 0, .Bad, "", [], []⟩) = .error .zeroDivisionError ∧
    run_in_batch_model 2 ["wf"] [1]
      (fun i => ⟨i, 0, .Bad, "", [], []⟩) = .error .valueError ∧
    run_in_batch_model 6 ["wf"] [2, 1]
      (fun i => ⟨i, 0, .Bad, "", [], []⟩) =
      .ok ([2, 1].map (fun i => ⟨i, 0, .Bad, "", [], []⟩)) :=
  ⟨((run_in_batch_implicit_precondition 50 [] [1] _
      (fun i => ⟨i, "", [], "", ""⟩)).1 rfl).1,
   ((run_in_batch_implicit_precondition 2 ["wf"] [1] _
      (fun i => ⟨i, "", [], "", ""⟩)).2.1 (by decide) (by decide)).1,
   ((run_in_batch_implicit_precondition 6 ["wf"] [2, 1] _
      (fun i => ⟨i, "", [], "", ""⟩)).2.2 (by decide) (by decide)).1⟩

/-- C8: with `with_metrics=False`, `run_vlm_curation` hands the engine no
metrics table — whatever quality metrics exist — and a reviewer's fan-out
then contains no metrics call at all; with `with_metrics=True` and a
metrics table, each reviewer's `process_unit` dispatches exactly one
extra call whose content is the unit's metrics row flattened to
comma-separated `name: value` text with every value printed to 5 decimal
places (e.g. `snr` at `0.2` and `l_ratio` at `3`). -/
theorem metrics_channel_gating :
    (∀ (metrics_list : Option (List String)) (qualityMetrics : MetricsFrame)
       (ids : List UnitId),
      run_vlm_curation_metrics false metrics_list qualityMetrics ids =
        .ok none) ∧
    (∀ features : List String,
      (process_unit_tasks features none).countP ModelCall.isMetrics = 0) ∧
    (∀ (features : List String) (qm : List (String × ℚ)),
      process_unit_tasks features (some qm) =
        features.map .featureCall ++
          [.metricsCall (metrics_message_text qm)] ∧
      (process_unit_tasks features (some qm)).countP ModelCall.isMetrics
        = 1) ∧
    metrics_message_text [("snr", 1/5), ("l_ratio", 3)] =
      "These are the quality metrics of this unit. Assess the quality. - " ++
        "snr: 0.20000,l_ratio: 3.00000" := by
  refine ⟨fun _ _ _ => rfl, ?_, ?_, ?_⟩
  · intro features
    rw [List.countP_eq_zero]
    intro call hc
    simp only [process_unit_tasks, List.append_nil] at hc
    rcases List.mem_map.mp hc with ⟨f, _, rfl⟩
    simp [ModelCall.isMetrics]
  · intro features qm
    refine ⟨rfl, ?_⟩
    simp only [process_unit_tasks, List.countP_append]
    have h0 : (features.map ModelCall.featureCall).countP
        ModelCall.isMetrics = 0 := by
      rw [List.countP_eq_zero]
      intro call hc
      rcases List.mem_map.mp hc with ⟨f, _, rfl⟩
      simp [ModelCall.isMetrics]
    rw [h0]
    rfl
  · have h1 : ratToFixed5 (1/5 : ℚ) = "0.20000" := by
      have h : roundHalfEven ((1/5 : ℚ) * 100000) = 20000 := by
        norm_num [roundHalfEven, ratFloor]
      have hs : ¬((1/5 : ℚ) < 0) := by norm_num
      simp only [ratToFixed5, h, if_neg hs]
      rfl
    have h2 : ratToFixed5 (3 : ℚ) = "3.00000" := by
      have h : roundHalfEven ((3 : ℚ) * 100000) = 300000 := by
        norm_num [roundHalfEven, ratFloor]
      have hs : ¬((3 : ℚ) < 0) := by norm_num
      simp only [ratToFixed5, h, if_neg hs]
      rfl
    simp only [metrics_message_text, List.map_cons, List.map_nil, h1, h2]
    rfl

/-- Common shape of both assembly steps: a stable ascending sort on a
key column followed by setting that column as the row index yields a
key-sorted table whose keys are exactly the processed identifiers, one
row each, regardless of the completion order. -/
lemma assemble_sorted_indexed {α : Type} (key : α → UnitId)
    (rel : α → α → Prop) [DecidableRel rel] [IsTotal α rel] [IsTrans α rel]
    (hrel : ∀ a b, rel a b → key a ≤ key b)
    (ids : List UnitId) (process : UnitId → α) (completion : List α)
    (hproc : ∀ id, key (process id) = id)
    (hperm : completion.Perm (ids.map process)) :
    (((completion.insertionSort rel).map (fun r => (key r, r))).map
      Prod.fst).Sorted (· ≤ ·) ∧
    (((completion.insertionSort rel).map (fun r => (key r, r))).map
      Prod.fst).Perm ids ∧
    ((completion.insertionSort rel).map (fun r => (key r, r))).length =
      ids.length ∧
    (∀ row ∈ (completion.insertionSort rel).map (fun r => (key r, r)),
      row.1 = key row.2) := by
  have hmap : ((completion.insertionSort rel).map
      (fun r => (key r, r))).map Prod.fst =
      (completion.insertionSort rel).map key := by
    simp [List.map_map, Function.comp]
  refine ⟨?_, ?_, ?_, ?_⟩
  · rw [hmap]
    have hs := List.sorted_insertionSort rel completion
    exact List.pairwise_map.mpr (hs.imp (fun h => hrel _ _ h))
  · rw [hmap]
    have h1 : ((completion.insertionSort rel).map key).Perm
        (completion.map key) :=
      (List.perm_insertionSort rel completion).map _
    have h2 : (completion.map key).Perm ((ids.map process).map key) :=
      hperm.map _
    have h3 : (ids.map process).map key = ids := by
      rw [List.map_map]
      have hcomp : key ∘ process = id := by
        funext id
        exact hproc id
      rw [hcomp, List.map_id]
    rw [h3] at h2
    exact h1.trans h2
  · calc ((completion.insertionSort rel).map
        (fun r => (key r, r))).length
        = (completion.insertionSort rel).length := List.length_map _ _
      _ = completion.length := (List.perm_insertionSort _ _).length_eq
      _ = (ids.map process).length := hperm.length_eq
      _ = ids.length := List.length_map _ _
  · intro row hrow
    rcases List.mem_map.mp hrow with ⟨r, _, rfl⟩
    rfl

/-- C6: whatever (non-deterministic) order the units complete in — any
permutation of the per-unit records — the assembled table of either
variant is sorted by its unit-of-work identifier ascending
(`unit_ids` for curation, `group_id` for merge), its rows are keyed by
that identifier column, and there is exactly one row per processed
unit. -/
theorem result_table_sorted_and_indexed
    (unit_ids : List UnitId) (process : UnitId → AggregatedResult)
    (completion : List AggregatedResult)
    (group_ids : List UnitId) (processm : UnitId → MergeResult)
    (completionm : List MergeResult)
    (hproc : ∀ id, (process id).unit_ids = id)
    (hperm : completion.Perm (unit_ids.map process))
    (hprocm : ∀ id, (processm id).group_id = id)
    (hpermm : completionm.Perm (group_ids.map processm)) :
    (((async_run_assemble completion).map Prod.fst).Sorted (· ≤ ·) ∧
     ((async_run_assemble completion).map Prod.fst).Perm unit_ids ∧
     (async_run_assemble completion).length = unit_ids.length ∧
     (∀ row ∈ async_run_assemble completion, row.1 = row.2.unit_ids)) ∧
    (((merge_async_run_assemble completionm).map Prod.fst).Sorted (· ≤ ·) ∧
     ((merge_async_run_assemble completionm).map Prod.fst).Perm group_ids ∧
     (merge_async_run_assemble completionm).length = group_ids.length ∧
     (∀ row ∈ merge_async_run_assemble completionm,
       row.1 = row.2.group_id)) := by
  constructor
  · refine assemble_sorted_indexed (fun r => r.unit_ids) byUnitIds
      ?_ unit_ids process completion hproc hperm
    exact fun _ _ h => h
  · refine assemble_sorted_indexed (fun r => r.group_id) byGroupId
      ?_ group_ids processm completionm hprocm hpermm
    exact fun _ _ h => h

/-- Witness for C6: curation units `[3, 1, 2]` completing in the order
`[2, 3, 1]` and merge groups `[3, 1, 2]` completing in the order
`[2, 3, 1]` still assemble into the ascending index. -/
theorem result_table_sorted_and_indexed_witness :
    (((async_run_assemble
      [⟨2, 0, .Good, "", [], []⟩, ⟨3, 0, .Good, "", [], []⟩,
       ⟨1, 0, .Good, "", [], []⟩]).map Prod.fst).Sorted (· ≤ ·) ∧
     ((async_run_assemble
      [⟨2, 0, .Good, "", [], []⟩, ⟨3, 0, .Good, "", [], []⟩,
       ⟨1, 0, .Good, "", [], []⟩]).map Prod.fst).Perm [3, 1, 2] ∧
     (async_run_assemble
      [⟨2, 0, .Good, "", [], []⟩, ⟨3, 0, .Good, "", [], []⟩,
       ⟨1, 0, .Good, "", [], []⟩]).length =
        ([3, 1, 2] : List UnitId).length ∧
     (∀ row ∈ async_run_assemble
      [⟨2, 0, .Good, "", [], []⟩, ⟨3, 0, .Good, "", [], []⟩,
       ⟨1, 0, .Good, "", [], []⟩], row.1 = row.2.unit_ids)) ∧
    (((merge_async_run_assemble
      [⟨2, "merge", [], "", ""⟩, ⟨3, "merge", [], "", ""⟩,
       ⟨1, "merge", [], "", ""⟩]).map Prod.fst).Sorted (· ≤ ·) ∧
     ((merge_async_run_assemble
      [⟨2, "merge", [], "", ""⟩, ⟨3, "merge", [], "", ""⟩,
       ⟨1, "merge", [], "", ""⟩]).map Prod.fst).Perm [3, 1, 2] ∧
     (merge_async_run_assemble
      [⟨2, "merge", [], "", ""⟩, ⟨3, "merge", [], "", ""⟩,
       ⟨1, "merge", [], "", ""⟩]).length =
        ([3, 1, 2] : List UnitId).length ∧
     (∀ row ∈ merge_async_run_assemble
      [⟨2, "merge", [], "", ""⟩, ⟨3, "merge", [], "", ""⟩,
       ⟨1, "merge", [], "", ""⟩], row.1 = row.2.group_id)) :=
  result_table_sorted_and_indexed [3, 1, 2]
    (fun i => ⟨i, 0, .Good, "", [], []⟩) _
    [3, 1, 2] (fun i => ⟨i, "merge", [], "", ""⟩) _
    (fun _ => rfl)
    (List.Perm.trans
      (List.Perm.swap (⟨3, 0, .Good, "", [], []⟩ : AggregatedResult)
        ⟨2, 0, .Good, "", [], []⟩ [⟨1, 0, .Good, "", [], []⟩])
      (List.Perm.cons _ (List.Perm.swap _ _ _)))
    (fun _ => rfl)
    (List.Perm.trans
      (List.Perm.swap (⟨3, "merge", [], "", ""⟩ : MergeResult)
        ⟨2, "merge", [], "", ""⟩ [⟨1, "merge", [], "", ""⟩])
      (List.Perm.cons _ (List.Perm.swap _ _ _)))

/-- C1 counterexample: with the metrics channel enabled the budget is
exceeded.  Curation shape `num_workers = 12`, 1 feature, 3 reviewers,
metrics on: the chunk size is `12 // (3*1) = 4`, so 4 units may be in
flight; with every reviewer in its fan-out phase each unit holds
`3 × (1 + 1) = 6` raw calls, for a reachable total of 24 > 12 — the
derived batch size does not account for the extra per-reviewer metrics
call. -/
theorem inflight_budget_counterexample :
    (BatchSnapshot.mk
      [[.fanout, .fanout, .fanout], [.fanout, .fanout, .fanout],
       [.fanout, .fanout, .fanout], [.fanout, .fanout, .fanout]]).valid
      ⟨12, 1, 3, true⟩ ∧
    (BatchSnapshot.mk
      [[.fanout, .fanout, .fanout], [.fanout, .fanout, .fanout],
       [.fanout, .fanout, .fanout], [.fanout, .fanout, .fanout]]).inflight
      ⟨12, 1, 3, true⟩ = 24 ∧
    12 < 24 := by
  refine ⟨by decide, rfl, by omega⟩

/-- C1 (amended): with the metrics channel disabled — and at most 3
reviewers per unit, as in both variants (3 for curation, 1 for merge) —
every reachable snapshot holds at most `num_workers` raw model calls in
flight; the throttle can be violated only by the extra metrics call. -/
theorem inflight_within_budget_without_metrics (c : EngineShape)
    (s : BatchSnapshot) (hm : c.with_metrics = false)
    (hr : c.reviewers ≤ 3) (hv : s.valid c) :
    s.inflight c ≤ c.num_workers := by
  rcases hv with ⟨hlen, hunits⟩
  by_cases hF : c.num_features = 0
  · have hbs : c.batch_size = 0 := by
      simp [EngineShape.batch_size, hF]
    have hnil : s.active_units = [] :=
      List.eq_nil_of_length_eq_zero (by omega)
    simp [BatchSnapshot.inflight, hnil]
  · have hF1 : 1 ≤ c.num_features := Nat.pos_of_ne_zero hF
    have hphase : ∀ p : ReviewerPhase,
        ReviewerPhase.inflight c p ≤ c.num_features := by
      intro p
      cases p
      · simp [ReviewerPhase.inflight, hm]
      · simpa [ReviewerPhase.inflight] using hF1
      · simp [ReviewerPhase.inflight]
    have hunit : ∀ u ∈ s.active_units,
        unitInflight c u ≤ c.reviewers * c.num_features := by
      intro u hu
      have h1 := List.sum_le_card_nsmul (u.map (ReviewerPhase.inflight c))
        c.num_features (by
          intro x hx
          rcases List.mem_map.mp hx with ⟨p, _, rfl⟩
          exact hphase p)
      rw [List.length_map, smul_eq_mul] at h1
      calc unitInflight c u = (u.map (ReviewerPhase.inflight c)).sum := rfl
        _ ≤ u.length * c.num_features := h1
        _ = c.reviewers * c.num_features := by rw [hunits u hu]
    have h2 := List.sum_le_card_nsmul (s.active_units.map (unitInflight c))
      (c.reviewers * c.num_features) (by
        intro x hx
        rcases List.mem_map.mp hx with ⟨u, hu, rfl⟩
        exact hunit u hu)
    rw [List.length_map, smul_eq_mul] at h2
    calc s.inflight c = (s.active_units.map (unitInflight c)).sum := rfl
      _ ≤ s.active_units.length * (c.reviewers * c.num_features) := h2
      _ ≤ c.batch_size * (3 * c.num_features) :=
          Nat.mul_le_mul hlen (Nat.mul_le_mul_right _ hr)
      _ = c.num_workers / (3 * c.num_features) * (3 * c.num_features) := rfl
      _ ≤ c.num_workers := Nat.div_mul_le_self _ _

/-- Witness for C1 (amended): 12 workers, 2 features, no metrics — a
full chunk of 2 units, all reviewers fanned out, holds exactly 12 calls. -/
theorem inflight_within_budget_without_metrics_witness :
    (BatchSnapshot.mk
      [[.fanout, .fanout, .fanout],
       [.fanout, .fanout, .fanout]]).inflight ⟨12, 2, 3, false⟩ ≤ 12 :=
  inflight_within_budget_without_metrics ⟨12, 2, 3, false⟩ _ rfl
    (by decide) (by decide)

end SpikeAgent
